import Mathlib

/-!
Shallow embedding of the metrics-aggregation routes of the
custom-app-base repository (three Next.js API routes: GA4 web analytics,
Google Ads advertising, Metricool social media), together with theorems
checking the specification claims against the embedded code.

Machine numbers of the JavaScript source are modelled as rationals; an
unparseable numeric string (NaN in JavaScript) is modelled as none.
Code that can throw is modelled with Except: an error value corresponds
to a thrown exception.
-/

namespace AppBase

/-! ### JavaScript string helpers -/

/-- Truthiness of an optional string, as JavaScript sees a value that may be
null or undefined: null, undefined and the empty string are falsy. -/
def jsTruthyStr (o : Option String) : Bool :=
  match o with
  | none => false
  | some s => !(s = "")

/-- The JavaScript pattern (x || dflt) on an optional string: null,
undefined and the empty string fall through to the default. -/
def jsOr (o : Option String) (dflt : String) : String :=
  match o with
  | none => dflt
  | some s => if s = "" then dflt else s

/-- Substring test on character lists, modelling String.prototype.includes. -/
def containsSub (pat : List Char) : List Char → Bool
  | [] => pat.isEmpty
  | c :: rest => pat.isPrefixOf (c :: rest) || containsSub pat rest

/-- dateStr.includes(pat) of the source. -/
def jsIncludes (s pat : String) : Bool :=
  containsSub pat.data s.data

/-- Replacement of the first occurrence of a pattern by the empty string,
modelling String.prototype.replace with a string pattern (which replaces
only the first occurrence). -/
def replaceFirstL (pat : List Char) : List Char → List Char
  | [] => []
  | c :: rest =>
    if pat.isPrefixOf (c :: rest) then (c :: rest).drop pat.length
    else c :: replaceFirstL pat rest

/-! ### JavaScript numeric parsing (parseInt, parseFloat, toFixed) -/

/-- Numeric value of a list of decimal digit characters. -/
def digitsVal (ds : List Char) : Nat :=
  ds.foldl (fun a c => 10 * a + (c.toNat - 48)) 0

/-- Parse the leading run of decimal digits; none when there is no digit,
matching parseInt returning NaN. -/
def jsParseIntCore (l : List Char) : Option Int :=
  let ds := l.takeWhile Char.isDigit
  if ds.isEmpty then none else some (digitsVal ds)

/-- parseInt(s) of the source on decimal input: skip leading whitespace,
accept an optional sign, then read leading decimal digits; none models NaN.
The radix-16 auto-detection of JS parseInt on a 0x prefix is not modelled:
on a user-supplied token such as 0x12daysAgo the source parses 18 where
this model parses 0, which changes only which date is rendered; the NaN
domain (no leading digit) coincides exactly, and no theorem below
involves a hexadecimal token. -/
def jsParseIntL (l : List Char) : Option Int :=
  match l.dropWhile Char.isWhitespace with
  | [] => none
  | c :: rest =>
    if c = '-' then (jsParseIntCore rest).map (fun n => -n)
    else if c = '+' then jsParseIntCore rest
    else jsParseIntCore (c :: rest)

/-- parseInt of the source, producing a JavaScript number (none = NaN). -/
def jsParseInt (s : String) : Option ℚ :=
  (jsParseIntL s.data).map (fun n => (n : ℚ))

/-- parseFloat(s) of the source on plain decimal input: optional sign,
integer digits, optional fractional digits; none models NaN. -/
def jsParseFloatL (l : List Char) : Option ℚ :=
  let core : List Char → Option ℚ := fun l' =>
    let ds := l'.takeWhile Char.isDigit
    let rest := l'.dropWhile Char.isDigit
    let fs := match rest with
      | '.' :: r => r.takeWhile Char.isDigit
      | _ => []
    if ds.isEmpty ∧ fs.isEmpty then none
    else some ((digitsVal ds : ℚ) + (digitsVal fs : ℚ) / ((10 : ℚ) ^ fs.length))
  match l.dropWhile Char.isWhitespace with
  | [] => none
  | c :: rest =>
    if c = '-' then (core rest).map (fun q => -q)
    else if c = '+' then core rest
    else core (c :: rest)

/-- parseFloat of the source (none = NaN). -/
def jsParseFloat (s : String) : Option ℚ :=
  jsParseFloatL s.data

/-- q.toFixed(2) of the source for the non-negative rates it is applied to:
round to the nearest hundredth (half away from zero for the non-negative
inputs that occur) and render with exactly two decimals. -/
def toFixed2 (q : ℚ) : String :=
  let scaled : ℤ := Int.floor (q * 100 + 1 / 2)
  let ip := scaled / 100
  let fp := (scaled % 100).toNat
  toString ip ++ "." ++ (if fp < 10 then "0" else "") ++ toString fp

/-! ### Date-range normalizer

The source's formatDate (google-ads route) and formatDateForMetricool
(metricool route) have identical bodies.  A calendar date is modelled by
its epoch-day number; the reference instant (the source reads new Date())
is the parameter ref.  The daysAgo branch computes
parseInt(dateStr.replace('daysAgo', '')) and subtracts that many days via
setDate; when parseInt yields NaN the Date becomes invalid and the final
toISOString() throws a RangeError, modelled as an error value. -/

/-- Result of date formatting: either a rendered ISO calendar date
(identified by its epoch-day number) or a literal token passed through
unchanged by the final return dateStr. -/
inductive DateStr where
  | rendered (day : ℤ)
  | literal (s : String)
deriving DecidableEq, Repr

/-- toISOString applied to a Date holding the given epoch day.  An
ECMAScript time value is valid only within 8.64e15 ms of the epoch in
either direction, i.e. within 100,000,000 days; a Date driven outside
that range (by setDate, or by NaN) is an Invalid Date, on which
toISOString throws a RangeError.  The model keeps days, taking the
instant at midnight, under which validity of day d is exactly
d.natAbs ≤ 100000000. -/
def renderISO (day : ℤ) : Except String DateStr :=
  if day.natAbs ≤ 100000000 then .ok (.rendered day) else .error "Invalid time value"

/-- The formatDate helper of the google-ads route (lines 252-266),
byte-identical to the formatDate at lines 50-64 and to
formatDateForMetricool of the metricool route.  Each rendered branch
ends in toISOString, so each is subject to the Invalid Date throw: a NaN
day count (unparseable prefix) and a day count that leaves the
representable Date range both throw. -/
def formatDate (ref : ℤ) (dateStr : String) : Except String DateStr :=
  if dateStr = "today" then renderISO ref
  else if dateStr = "yesterday" then renderISO (ref - 1)
  else if jsIncludes dateStr "daysAgo" then
    match jsParseIntL (replaceFirstL "daysAgo".data dateStr.data) with
    | some n => renderISO (ref - n)
    | none => .error "Invalid time value"
  else .ok (.literal dateStr)

/-- formatDateForMetricool of the metricool route (lines 329-343); its
body is identical to formatDate. -/
def formatDateForMetricool (ref : ℤ) (dateStr : String) : Except String DateStr :=
  formatDate ref dateStr

/-- The global hyphen-removing replace applied to a formatted date before
interpolation into the advertising query: a rendered ISO date becomes the
compact form of the same calendar day; a literal has its hyphens removed. -/
def stripHyphens (d : DateStr) : DateStr :=
  match d with
  | .rendered n => .rendered n
  | .literal s => .literal (String.mk (s.data.filter (fun c => !(c = '-'))))

/-! ### Opaque JSON payloads and tenant tables -/

/-- A scalar JSON value, enough to distinguish a JSON number from a JSON
string (the routes never inspect the provider payloads they pass through,
so compound payloads are represented by opaque scalars). -/
inductive JVal where
  | num (q : ℚ)
  | str (s : String)
  | bool (b : Bool)
  | jnull
deriving DecidableEq, Repr

/-- Table access t[k]: the value stored under key k, if present. -/
def tableGet {α : Type} (t : List (String × α)) (k : String) : Option α :=
  (t.find? (fun p => p.1 == k)).map (fun p => p.2)

/-- The pattern t[k] || t['default'] of the routes restricted to own keys
(every table entry is an object, hence truthy).  This is the lookup the
route embeddings use; it agrees with the full property-access semantics
jsRecordGetOrDefault below for every key that is not a property name
inherited from Object.prototype (lemma lookupJs_agrees). -/
def lookupJs {α : Type} (t : List (String × α)) (k : String) : Option α :=
  match tableGet t k with
  | some v => some v
  | none => tableGet t "default"

/-- Outcome of a JavaScript property access t[k] on an object literal:
an own entry (a config object), a member inherited from Object.prototype
(a function or object, hence truthy), or undefined. -/
inductive JsProp (α : Type) where
  | own (v : α)
  | inherited (name : String)
  | undefined
deriving DecidableEq, Repr

/-- The property names every object literal inherits from
Object.prototype: t[k] at one of these keys, when k is not an own key,
yields the inherited member rather than undefined. -/
def objectProtoKeys : List String :=
  ["constructor", "toString", "toLocaleString", "valueOf", "hasOwnProperty",
   "isPrototypeOf", "propertyIsEnumerable", "__proto__",
   "__defineGetter__", "__defineSetter__", "__lookupGetter__", "__lookupSetter__"]

/-- Full model of the property access t[k] of the source: own keys first,
then the prototype chain of an object literal, else undefined. -/
def jsRecordGet {α : Type} (t : List (String × α)) (k : String) : JsProp α :=
  match tableGet t k with
  | some v => .own v
  | none => if k ∈ objectProtoKeys then .inherited k else .undefined

/-- Full model of t[k] || t['default'] of the source: own entries and
inherited members are truthy and short-circuit the fallback; only
undefined falls through to the default entry. -/
def jsRecordGetOrDefault {α : Type} (t : List (String × α)) (k : String) : JsProp α :=
  match jsRecordGet t k with
  | .undefined => jsRecordGet t "default"
  | v => v

/-- Entry of PROPERTY_MAPPING in the GA4 route (lines 6-11). -/
structure Ga4Config where
  propertyId : String
  name : String
  adsCustomerId : String
deriving DecidableEq, Repr

/-- PROPERTY_MAPPING of the GA4 route. -/
def PROPERTY_MAPPING : List (String × Ga4Config) :=
  [("default", ⟨"270323387", "Art Unlimited", "1196391424"⟩),
   ("7d52dc8e-c603-4c7e-ad27-60c15a86c12f", ⟨"270323387", "Art Unlimited", "1196391424"⟩),
   ("fdb96a2c-a6ad-4238-9747-06b3ce7e8840", ⟨"266834246", "Alans Roofing", "9499823115"⟩),
   ("61e7c938-fd52-4693-b79b-c2fb2349b61d", ⟨"260457321", "Straight Line", "7116961973"⟩)]

/-- Entry of CUSTOMER_MAPPING in the google-ads route (lines 155-161),
carrying the hasGoogleAds capability flag. -/
structure AdsConfig where
  customerId : String
  name : String
  hasGoogleAds : Bool
deriving DecidableEq, Repr

/-- CUSTOMER_MAPPING of the google-ads route. -/
def CUSTOMER_MAPPING : List (String × AdsConfig) :=
  [("default", ⟨"7116961973", "Art Unlimited", false⟩),
   ("7d52dc8e-c603-4c7e-ad27-60c15a86c12f", ⟨"1196391424", "Art Unlimited", false⟩),
   ("fdb96a2c-a6ad-4238-9747-06b3ce7e8840", ⟨"9499823115", "Alans Roofing", true⟩),
   ("61e7c938-fd52-4693-b79b-c2fb2349b61d", ⟨"7116961973", "Straight Line", true⟩)]

/-- Entry of BLOG_MAPPING in the metricool route (lines 175-190). -/
structure BlogConfig where
  blogId : String
  name : String
deriving DecidableEq, Repr

/-- BLOG_MAPPING of the metricool route. -/
def BLOG_MAPPING : List (String × BlogConfig) :=
  [("default", ⟨"1920806", "Straightline Roofing"⟩),
   ("fdb96a2c-a6ad-4238-9747-06b3ce7e8840", ⟨"1920864", "Alans Roofing"⟩),
   ("7d52dc8e-c603-4c7e-ad27-60c15a86c12f", ⟨"1914400", "Art Unlimited"⟩),
   ("CRANDALL_COMPANY_ID", ⟨"4374791", "Crandall Roofing"⟩),
   ("MIDDLE_CREEK_COMPANY_ID", ⟨"1929926", "Middle Creek"⟩),
   ("NEPA_COMPANY_ID", ⟨"1920835", "NEPA Builders"⟩),
   ("QUANTUM_COMPANY_ID", ⟨"1920899", "Quantum Roofing"⟩),
   ("SRW_COMPANY_ID", ⟨"4069038", "SRW Products"⟩),
   ("STEVENS_COMPANY_ID", ⟨"1920881", "Stevens Roofing"⟩),
   ("STRAIGHTLINE_COMPANY_ID", ⟨"1920806", "Straightline Roofing"⟩),
   ("TITTLE_COMPANY_ID", ⟨"3797430", "Tittle Brothers"⟩),
   ("TRENT_COMPANY_ID", ⟨"4947746", "Trent Cotney"⟩),
   ("VANWEELDEN_COMPANY_ID", ⟨"1920820", "VanWeelden"⟩)]

/-! ### Requests and external effects -/

/-- The query parameters each route reads from the incoming request;
a missing parameter is none (searchParams.get returns null). -/
structure Request where
  token : Option String
  startDate : Option String
  endDate : Option String
deriving DecidableEq, Repr

/-- External calls a route can issue, recorded in order. -/
inductive Eff where
  | identityLookup
  | ga4Query (kind : String)
  | adsQuery (kind : String)
  | metricoolCall (endpoint : String)
deriving DecidableEq, Repr

/-! ### GA4 route (web-analytics adapter) -/

/-- One row of a GA4 runReport reply; the arrays and the value inside each
cell may each be absent. -/
structure Ga4Row where
  dimensionValues : Option (List (Option String))
  metricValues : Option (List (Option String))
deriving DecidableEq, Repr

/-- A GA4 runReport reply; rows may be absent. -/
structure Ga4Report where
  rows : Option (List Ga4Row)
deriving DecidableEq, Repr

/-- The chain xs?.[i]?.value of the source: absent array, out-of-range
index and absent cell value all give undefined. -/
def optIdx (xs : Option (List (Option String))) (i : Nat) : Option String :=
  match xs with
  | none => none
  | some l => (l.get? i).join

/-- metricsResponse.rows?.[0] of the source. -/
def mainRowOf (rep : Ga4Report) : Option Ga4Row :=
  rep.rows.bind (fun l => l.get? 0)

/-- The mainMetrics object built at lines 106-114 of the GA4 route.
A numeric field is none when parseInt or parseFloat yields NaN. -/
structure Ga4MainMetrics where
  activeUsers : Option ℚ
  sessions : Option ℚ
  pageViews : Option ℚ
  avgSessionDuration : Option ℚ
  bounceRate : String
  newUsers : Option ℚ
  engagementRate : String
deriving DecidableEq, Repr

/-- NaN.toFixed(2) renders as the string NaN; otherwise round the scaled
rate to two decimals. -/
def rateString (q : Option ℚ) : String :=
  match q with
  | none => "NaN"
  | some v => toFixed2 (v * 100)

/-- Parsing of the main-metrics row (GA4 route lines 106-114). -/
def parseMainMetrics (r : Ga4Row) : Ga4MainMetrics :=
  { activeUsers := jsParseInt (jsOr (optIdx r.metricValues 0) "0")
    sessions := jsParseInt (jsOr (optIdx r.metricValues 1) "0")
    pageViews := jsParseInt (jsOr (optIdx r.metricValues 2) "0")
    avgSessionDuration := jsParseFloat (jsOr (optIdx r.metricValues 3) "0")
    bounceRate := rateString (jsParseFloat (jsOr (optIdx r.metricValues 4) "0"))
    newUsers := jsParseInt (jsOr (optIdx r.metricValues 5) "0")
    engagementRate := rateString (jsParseFloat (jsOr (optIdx r.metricValues 6) "0")) }

/-- A point of the daily time series (GA4 route lines 117-122). -/
structure TimePoint where
  date : String
  activeUsers : Option ℚ
  sessions : Option ℚ
  pageViews : Option ℚ
deriving DecidableEq, Repr

/-- Parsing of one time-series row. -/
def parseTimePoint (r : Ga4Row) : TimePoint :=
  { date := jsOr (optIdx r.dimensionValues 0) ""
    activeUsers := jsParseInt (jsOr (optIdx r.metricValues 0) "0")
    sessions := jsParseInt (jsOr (optIdx r.metricValues 1) "0")
    pageViews := jsParseInt (jsOr (optIdx r.metricValues 2) "0") }

/-- A top-pages entry (GA4 route lines 125-129). -/
structure PageEntry where
  title : String
  path : String
  views : Option ℚ
deriving DecidableEq, Repr

/-- Parsing of one top-pages row. -/
def parsePage (r : Ga4Row) : PageEntry :=
  { title := jsOr (optIdx r.dimensionValues 0) "Unknown"
    path := jsOr (optIdx r.dimensionValues 1) "/"
    views := jsParseInt (jsOr (optIdx r.metricValues 0) "0") }

/-- A traffic-sources entry (GA4 route lines 132-135). -/
structure SourceEntry where
  source : String
  sessions : Option ℚ
deriving DecidableEq, Repr

/-- Parsing of one traffic-sources row. -/
def parseSource (r : Ga4Row) : SourceEntry :=
  { source := jsOr (optIdx r.dimensionValues 0) "Unknown"
    sessions := jsParseInt (jsOr (optIdx r.metricValues 0) "0") }

/-- A device-breakdown entry (GA4 route lines 138-141). -/
structure DeviceEntry where
  device : String
  users : Option ℚ
deriving DecidableEq, Repr

/-- Parsing of one device row. -/
def parseDevice (r : Ga4Row) : DeviceEntry :=
  { device := jsOr (optIdx r.dimensionValues 0) "Unknown"
    users := jsParseInt (jsOr (optIdx r.metricValues 0) "0") }

/-- A top-countries entry (GA4 route lines 144-147). -/
structure CountryEntry where
  country : String
  users : Option ℚ
deriving DecidableEq, Repr

/-- Parsing of one country row. -/
def parseCountry (r : Ga4Row) : CountryEntry :=
  { country := jsOr (optIdx r.dimensionValues 0) "Unknown"
    users := jsParseInt (jsOr (optIdx r.metricValues 0) "0") }

/-- The echoed dateRange object of each success response. -/
structure DateRangeOut where
  startDate : String
  endDate : String
deriving DecidableEq, Repr

/-- The success body of the GA4 route (lines 149-159). -/
structure Ga4Body where
  companyId : String
  companyName : String
  dateRange : DateRangeOut
  metrics : Option Ga4MainMetrics
  timeSeries : List TimePoint
  topPages : List PageEntry
  trafficSources : List SourceEntry
  devices : List DeviceEntry
  countries : List CountryEntry
deriving DecidableEq, Repr

/-- An error document { error, details? } as returned by the routes. -/
structure ErrBody where
  error : String
  details : Option String
deriving DecidableEq, Repr

/-- A GA4 route response: a 200 success body, or an error document with
its HTTP status. -/
inductive Ga4Resp where
  | ok (body : Ga4Body)
  | err (status : Nat) (body : ErrBody)
deriving DecidableEq, Repr

/-- The dateRange of a success response, if the response is a success. -/
def Ga4Resp.dateRangeOf : Ga4Resp → Option DateRangeOut
  | .ok b => some b.dateRange
  | .err _ _ => none

/-- The topPages collection of a success response, if any. -/
def Ga4Resp.topPagesOf : Ga4Resp → Option (List PageEntry)
  | .ok b => some b.topPages
  | .err _ _ => none

/-- The metrics object of a success response, if any. -/
def Ga4Resp.metricsOf : Ga4Resp → Option (Option Ga4MainMetrics)
  | .ok b => some b.metrics
  | .err _ _ => none

/-- Outcomes of the external calls the GA4 route makes: the copilot
getTokenPayload call (an error models a thrown exception, a success value
is session?.companyId) and the six runReport queries in source order. -/
structure Ga4Env where
  session : Except String (Option String)
  metricsQ : Except String Ga4Report
  timeSeriesQ : Except String Ga4Report
  pagesQ : Except String Ga4Report
  sourcesQ : Except String Ga4Report
  devicesQ : Except String Ga4Report
  countriesQ : Except String Ga4Report
deriving Repr

/-- The 500 document of the GA4 route's top-level catch (lines 161-167). -/
def ga4Err (msg : String) : Ga4Resp :=
  .err 500 ⟨"Failed to fetch analytics data", some msg⟩

/-- The GET handler of the GA4 route (lines 13-168).  The six runReport
calls are awaited in order with no per-call catch, so the first rejected
query aborts the handler into the top-level catch; the trace records the
calls issued up to that point. -/
def ga4GET (req : Request) (env : Ga4Env) : Ga4Resp × List Eff :=
  if !(jsTruthyStr req.token) then (.err 401 ⟨"No token provided", none⟩, [])
  else
    let startDate := jsOr req.startDate "30daysAgo"
    let endDate := jsOr req.endDate "today"
    match env.session with
    | .error e => (ga4Err e, [.identityLookup])
    | .ok sess =>
      let companyId := jsOr sess "default"
      let cfg := (lookupJs PROPERTY_MAPPING companyId).getD
        ⟨"270323387", "Art Unlimited", "1196391424"⟩
      match env.metricsQ with
      | .error e => (ga4Err e, [.identityLookup, .ga4Query "metrics"])
      | .ok mrep =>
        match env.timeSeriesQ with
        | .error e => (ga4Err e, [.identityLookup, .ga4Query "metrics", .ga4Query "timeSeries"])
        | .ok tsrep =>
          match env.pagesQ with
          | .error e => (ga4Err e,
              [.identityLookup, .ga4Query "metrics", .ga4Query "timeSeries", .ga4Query "pages"])
          | .ok prep =>
            match env.sourcesQ with
            | .error e => (ga4Err e,
                [.identityLookup, .ga4Query "metrics", .ga4Query "timeSeries", .ga4Query "pages",
                 .ga4Query "sources"])
            | .ok srep =>
              match env.devicesQ with
              | .error e => (ga4Err e,
                  [.identityLookup, .ga4Query "metrics", .ga4Query "timeSeries", .ga4Query "pages",
                   .ga4Query "sources", .ga4Query "devices"])
              | .ok drep =>
                match env.countriesQ with
                | .error e => (ga4Err e,
                    [.identityLookup, .ga4Query "metrics", .ga4Query "timeSeries",
                     .ga4Query "pages", .ga4Query "sources", .ga4Query "devices",
                     .ga4Query "countries"])
                | .ok crep =>
                  (.ok { companyId := companyId
                         companyName := cfg.name
                         dateRange := ⟨startDate, endDate⟩
                         metrics := (mainRowOf mrep).map parseMainMetrics
                         timeSeries := (tsrep.rows.getD []).map parseTimePoint
                         topPages := (prep.rows.getD []).map parsePage
                         trafficSources := (srep.rows.getD []).map parseSource
                         devices := (drep.rows.getD []).map parseDevice
                         countries := (crep.rows.getD []).map parseCountry },
                   [.identityLookup, .ga4Query "metrics", .ga4Query "timeSeries",
                    .ga4Query "pages", .ga4Query "sources", .ga4Query "devices",
                    .ga4Query "countries"])

/-! ### Google Ads route (advertising adapter) -/

/-- The environment variables the google-ads route checks (lines 174-180). -/
structure AdsEnvVars where
  clientId : Option String
  clientSecret : Option String
  developerToken : Option String
  refreshToken : Option String
  copilotApiKey : Option String
deriving DecidableEq, Repr

/-- The names of the falsy environment variables, in source order
(lines 182-184). -/
def adsMissingVars (v : AdsEnvVars) : List String :=
  (List.filter (fun p => !(jsTruthyStr p.2))
    [("clientId", v.clientId), ("clientSecret", v.clientSecret),
     ("developerToken", v.developerToken), ("refreshToken", v.refreshToken),
     ("copilotApiKey", v.copilotApiKey)]).map (fun p => p.1)

/-- The metrics sub-object of a Google Ads reply row; every field may be
absent. -/
structure AdsRawMetricsObj where
  impressions : Option ℚ
  clicks : Option ℚ
  ctr : Option ℚ
  cost_micros : Option ℚ
  conversions : Option ℚ
  conversions_value : Option ℚ
  average_cpc : Option ℚ
deriving DecidableEq, Repr

/-- A row of the account-level metrics query. -/
structure AdsRawRow where
  metrics : Option AdsRawMetricsObj
deriving DecidableEq, Repr

/-- The campaign sub-object of a campaign query row. -/
structure AdsRawCampaign where
  id : Option ℚ
  name : Option String
  status : Option String
deriving DecidableEq, Repr

/-- A row of the campaign query. -/
structure AdsRawCampaignRow where
  campaign : Option AdsRawCampaign
  metrics : Option AdsRawMetricsObj
deriving DecidableEq, Repr

/-- Number(x || 0) of the source: an absent provider value becomes 0. -/
def numOr0 (o : Option ℚ) : ℚ := o.getD 0

/-- The overall-metrics object built at lines 339-347 of the google-ads
route.  The ctr field is a JSON value to record that the source emits it
as a number (Number(...) * 100), not as a formatted string. -/
structure AdsMetricsOut where
  impressions : ℚ
  clicks : ℚ
  ctr : JVal
  cost : ℚ
  conversions : ℚ
  conversionsValue : ℚ
  averageCpc : ℚ
deriving DecidableEq, Repr

/-- Normalization of the account-level metrics (lines 339-347): micros
divided by 1,000,000; ctr rescaled by 100 and kept numeric. -/
def normalizeAdsMetrics (m : Option AdsRawMetricsObj) : AdsMetricsOut :=
  { impressions := numOr0 (m.bind (fun x => x.impressions))
    clicks := numOr0 (m.bind (fun x => x.clicks))
    ctr := .num (numOr0 (m.bind (fun x => x.ctr)) * 100)
    cost := numOr0 (m.bind (fun x => x.cost_micros)) / 1000000
    conversions := numOr0 (m.bind (fun x => x.conversions))
    conversionsValue := numOr0 (m.bind (fun x => x.conversions_value))
    averageCpc := numOr0 (m.bind (fun x => x.average_cpc)) / 1000000 }

/-- A normalized campaign row as built at lines 350-360. -/
structure AdsCampaignOut where
  id : Option ℚ
  name : String
  status : Option String
  impressions : ℚ
  clicks : ℚ
  ctr : JVal
  cost : ℚ
  conversions : ℚ
  conversionsValue : ℚ
deriving DecidableEq, Repr

/-- Normalization of one campaign row (lines 350-360). -/
def normalizeCampaign (row : AdsRawCampaignRow) : AdsCampaignOut :=
  { id := row.campaign.bind (fun c => c.id)
    name := jsOr (row.campaign.bind (fun c => c.name)) "Unknown Campaign"
    status := row.campaign.bind (fun c => c.status)
    impressions := numOr0 (row.metrics.bind (fun x => x.impressions))
    clicks := numOr0 (row.metrics.bind (fun x => x.clicks))
    ctr := .num (numOr0 (row.metrics.bind (fun x => x.ctr)) * 100)
    cost := numOr0 (row.metrics.bind (fun x => x.cost_micros)) / 1000000
    conversions := numOr0 (row.metrics.bind (fun x => x.conversions))
    conversionsValue := numOr0 (row.metrics.bind (fun x => x.conversions_value)) }

/-- The success body of the google-ads route (lines 363-370). -/
structure AdsBody where
  companyId : String
  companyName : String
  customerId : String
  dateRange : DateRangeOut
  metrics : Option AdsMetricsOut
  campaigns : List AdsCampaignOut
deriving DecidableEq, Repr

/-- A google-ads route response.  Each error constructor corresponds to
one literal NextResponse.json error document of the source:
errAuth is the 401 of line 170; errConfig the 500 of lines 188-191;
errClientInit the 500 of lines 226-229; errCustomer the 500 of lines
245-248; errQuery the 500 of lines 326-335 (with customer id and the
formatted date range); errTop the 500 of the top-level catch. -/
inductive AdsResp where
  | ok (body : AdsBody)
  | errAuth
  | errConfig (missing : List String)
  | errClientInit (details : String)
  | errCustomer (details : String)
  | errQuery (details : String) (customerId : String) (fmtStart fmtEnd : DateStr)
  | errTop (details : String)
deriving DecidableEq, Repr

/-- The HTTP status of each google-ads response, from the source literals. -/
def AdsResp.status : AdsResp → Nat
  | .ok _ => 200
  | .errAuth => 401
  | .errConfig _ => 500
  | .errClientInit _ => 500
  | .errCustomer _ => 500
  | .errQuery _ _ _ _ => 500
  | .errTop _ => 500

/-- The dateRange of a google-ads success response, if any. -/
def AdsResp.dateRangeOf : AdsResp → Option DateRangeOut
  | .ok b => some b.dateRange
  | _ => none

/-- The metrics of a google-ads success response, if any. -/
def AdsResp.metricsOf : AdsResp → Option (Option AdsMetricsOut)
  | .ok b => some b.metrics
  | _ => none

/-- The campaigns of a google-ads success response, if any. -/
def AdsResp.campaignsOf : AdsResp → Option (List AdsCampaignOut)
  | .ok b => some b.campaigns
  | _ => none

/-- Outcomes of the external interactions of the google-ads route: the
environment variables, the copilot getTokenPayload call (wrapped in its own
try/catch at lines 202-209), the client and customer constructions, the
reference instant, and the two provider queries. -/
structure AdsEnv where
  vars : AdsEnvVars
  session : Except String (Option String)
  clientInit : Except String Unit
  customerInit : Except String Unit
  ref : ℤ
  /-- The reference instant is a reading of the system clock (new Date()
  with no argument), hence a valid Date by construction, lying deep
  inside the ±100,000,000-day representable range whose edges are about
  271,821 years from the epoch; the invariant records a conservative
  bound with room for the routes' 30-day default offset. -/
  refOk : ref.natAbs ≤ 99999000
  campaignQ : Except String (List AdsRawCampaignRow)
  metricsQ : Except String (List AdsRawRow)

/-- The GET handler of the google-ads route (lines 163-384).  The
getTokenPayload failure is caught locally and the handler continues with
the default tenant; both provider queries are started together
(Promise.all), so both appear in the trace even when one fails; when both
fail the model reports the campaign query's message (Promise.all rejects
with one of them). -/
def adsGET (req : Request) (env : AdsEnv) : AdsResp × List Eff :=
  if !(jsTruthyStr req.token) then (.errAuth, [])
  else
    let startDate := jsOr req.startDate "30daysAgo"
    let endDate := jsOr req.endDate "today"
    let missing := adsMissingVars env.vars
    if missing.length > 0 then (.errConfig missing, [])
    else
      let companyId := match env.session with
        | .ok s => jsOr s "default"
        | .error _ => "default"
      let cfg := (lookupJs CUSTOMER_MAPPING companyId).getD ⟨"7116961973", "Art Unlimited", false⟩
      match env.clientInit with
      | .error e => (.errClientInit e, [.identityLookup])
      | .ok _ =>
        match env.customerInit with
        | .error e => (.errCustomer e, [.identityLookup])
        | .ok _ =>
          match formatDate env.ref startDate with
          | .error e => (.errTop e, [.identityLookup])
          | .ok fs =>
            match formatDate env.ref endDate with
            | .error e => (.errTop e, [.identityLookup])
            | .ok fe =>
              let fS := stripHyphens fs
              let fE := stripHyphens fe
              let trace := [Eff.identityLookup, Eff.adsQuery "campaign", Eff.adsQuery "customer"]
              match env.campaignQ with
              | .error e => (.errQuery e cfg.customerId fS fE, trace)
              | .ok camps =>
                match env.metricsQ with
                | .error e => (.errQuery e cfg.customerId fS fE, trace)
                | .ok overall =>
                  (.ok { companyId := companyId
                         companyName := cfg.name
                         customerId := cfg.customerId
                         dateRange := ⟨startDate, endDate⟩
                         metrics := (overall.get? 0).map (fun r => normalizeAdsMetrics r.metrics)
                         campaigns := camps.map normalizeCampaign },
                   trace)

/-! ### Metricool route (social-media adapter) -/

/-- The environment variables the metricool route checks (lines 203-207). -/
structure MetricoolEnvVars where
  metricoolToken : Option String
  metricoolUserId : Option String
  copilotApiKey : Option String
deriving DecidableEq, Repr

/-- The names of the falsy environment variables, in source order. -/
def metricoolMissingVars (v : MetricoolEnvVars) : List String :=
  (List.filter (fun p => !(jsTruthyStr p.2))
    [("metricoolToken", v.metricoolToken), ("metricoolUserId", v.metricoolUserId),
     ("copilotApiKey", v.copilotApiKey)]).map (fun p => p.1)

/-- The success body of the metricool route (lines 304-312): the three
provider payloads are passed through opaquely; a section whose call was
caught by its .catch handler is null (none). -/
structure MetricoolBody where
  companyId : String
  companyName : String
  blogId : String
  dateRange : DateRangeOut
  profile : Option JVal
  stats : Option JVal
  posts : Option JVal
deriving DecidableEq, Repr

/-- A metricool route response; errAuth is the 401 of line 199, errConfig
the 500 of lines 215-218, errTop the 500 of the top-level catch. -/
inductive MetricoolResp where
  | ok (body : MetricoolBody)
  | errAuth
  | errConfig (missing : List String)
  | errTop (details : String)
deriving DecidableEq, Repr

/-- The HTTP status of each metricool response, from the source literals. -/
def MetricoolResp.status : MetricoolResp → Nat
  | .ok _ => 200
  | .errAuth => 401
  | .errConfig _ => 500
  | .errTop _ => 500

/-- The dateRange of a metricool success response, if any. -/
def MetricoolResp.dateRangeOf : MetricoolResp → Option DateRangeOut
  | .ok b => some b.dateRange
  | _ => none

/-- Outcomes of the metricool route's external interactions: environment
variables, the copilot getTokenPayload call (caught locally, lines
229-235), the reference instant, and the three provider calls. -/
structure MetricoolEnv where
  vars : MetricoolEnvVars
  session : Except String (Option String)
  ref : ℤ
  /-- As in AdsEnv: the reference instant is a system-clock reading, a
  valid Date far from the representable range's edges. -/
  refOk : ref.natAbs ≤ 99999000
  profileQ : Except String JVal
  statsQ : Except String JVal
  postsQ : Except String JVal

/-- The GET handler of the metricool route (lines 192-326).  The three
provider calls each carry their own .catch that degrades a failure to
null, so a failed call cannot fail the route; but the stats call's
parameter object evaluates formatDateForMetricool synchronously, after the
profile call was initiated and before the posts call, so a date-formatting
throw aborts into the top-level catch with only the profile call issued. -/
def metricoolGET (req : Request) (env : MetricoolEnv) : MetricoolResp × List Eff :=
  if !(jsTruthyStr req.token) then (.errAuth, [])
  else
    let startDate := jsOr req.startDate "30daysAgo"
    let endDate := jsOr req.endDate "today"
    let missing := metricoolMissingVars env.vars
    if missing.length > 0 then (.errConfig missing, [])
    else
      let companyId := match env.session with
        | .ok s => jsOr s "default"
        | .error _ => "default"
      let cfg := (lookupJs BLOG_MAPPING companyId).getD ⟨"1920806", "Straightline Roofing"⟩
      match formatDateForMetricool env.ref startDate with
      | .error e => (.errTop e, [.identityLookup, .metricoolCall "/admin/simpleProfiles"])
      | .ok _ =>
        match formatDateForMetricool env.ref endDate with
        | .error e => (.errTop e, [.identityLookup, .metricoolCall "/admin/simpleProfiles"])
        | .ok _ =>
          (.ok { companyId := companyId
                 companyName := cfg.name
                 blogId := cfg.blogId
                 dateRange := ⟨startDate, endDate⟩
                 profile := env.profileQ.toOption
                 stats := env.statsQ.toOption
                 posts := env.postsQ.toOption },
           [.identityLookup, .metricoolCall "/admin/simpleProfiles",
            .metricoolCall "/statistics/summary", .metricoolCall "/posts/list"])

/-- The profile section of a metricool success response, if any. -/
def MetricoolResp.profileOf : MetricoolResp → Option (Option JVal)
  | .ok b => some b.profile
  | _ => none

/-- The stats section of a metricool success response, if any. -/
def MetricoolResp.statsOf : MetricoolResp → Option (Option JVal)
  | .ok b => some b.stats
  | _ => none

/-- The posts section of a metricool success response, if any. -/
def MetricoolResp.postsOf : MetricoolResp → Option (Option JVal)
  | .ok b => some b.posts
  | _ => none

/-! ### Helper lemmas -/

theorem containsSub_append_self (pat xs : List Char) : containsSub pat (xs ++ pat) = true := by
  induction xs with
  | nil =>
    cases pat with
    | nil => simp [containsSub]
    | cons c r => simp [containsSub, List.isPrefixOf_iff_prefix]
  | cons a as ih =>
    simp [containsSub, ih]

theorem digit_not_d {c : Char} (h : c.isDigit = true) : ('d' == c) = false := by
  cases hbe : ('d' == c) with
  | false => rfl
  | true =>
    have hc : 'd' = c := by simpa using hbe
    rw [← hc] at h
    simp [Char.isDigit] at h

theorem replaceFirstL_digits (ds : List Char) (h : ∀ c ∈ ds, c.isDigit = true) :
    replaceFirstL "daysAgo".data (ds ++ "daysAgo".data) = ds := by
  induction ds with
  | nil => decide
  | cons c cs ih =>
    have hc : c.isDigit = true := h c (List.mem_cons_self _ _)
    have hpre : ("daysAgo".data).isPrefixOf (c :: (cs ++ "daysAgo".data)) = false := by
      show (('d' :: "aysAgo".data)).isPrefixOf (c :: (cs ++ "daysAgo".data)) = false
      simp [List.isPrefixOf, digit_not_d hc]
    rw [show (c :: cs) ++ "daysAgo".data = c :: (cs ++ "daysAgo".data) from rfl]
    rw [replaceFirstL, hpre]
    simp [ih (fun x hx => h x (List.mem_cons_of_mem _ hx))]

theorem digit_not_ws {c : Char} (h : c.isDigit = true) : c.isWhitespace = false := by
  cases hw : c.isWhitespace with
  | false => rfl
  | true =>
    exfalso
    simp [Char.isWhitespace] at hw
    rcases hw with ((h2 | h2) | h2) | h2 <;> (subst h2; revert h; decide)

theorem digit_ne {c d : Char} (h : c.isDigit = true) (hd : d.isDigit = false) : ¬(c = d) := by
  intro he
  subst he
  rw [h] at hd
  exact Bool.noConfusion hd

theorem jsParseIntL_digits (ds : List Char) (hne : ds ≠ []) (h : ∀ c ∈ ds, c.isDigit = true) :
    jsParseIntL ds = some (digitsVal ds) := by
  cases ds with
  | nil => exact absurd rfl hne
  | cons c cs =>
    have hc : c.isDigit = true := h c (List.mem_cons_self _ _)
    have htw : (c :: cs).takeWhile Char.isDigit = c :: cs :=
      List.takeWhile_eq_self_iff.mpr h
    rw [jsParseIntL]
    rw [List.dropWhile_cons]
    rw [digit_not_ws hc]
    simp only [Bool.false_eq_true, if_false]
    rw [if_neg (digit_ne hc (by decide)), if_neg (digit_ne hc (by decide))]
    rw [jsParseIntCore]
    simp [htw]

theorem mk_append_ne_today (ds : List Char) :
    ¬(String.mk (ds ++ "daysAgo".data) = "today") := by
  intro h
  have hd : ds ++ "daysAgo".data = "today".data := congrArg String.data h
  have hl := congrArg List.length hd
  simp [List.length_append] at hl

theorem mk_append_ne_yesterday (ds : List Char) (h : ∀ c ∈ ds, c.isDigit = true) :
    ¬(String.mk (ds ++ "daysAgo".data) = "yesterday") := by
  intro he
  have hd : ds ++ "daysAgo".data = "yesterday".data := congrArg String.data he
  have hl := congrArg List.length hd
  simp [List.length_append] at hl
  have h2 : ∃ a b, ds = [a, b] := List.length_eq_two.mp hl
  obtain ⟨a, b, rfl⟩ := h2
  simp at hd

theorem renderISO_ok {day : ℤ} (h : day.natAbs ≤ 100000000) :
    renderISO day = .ok (.rendered day) := by
  rw [renderISO, if_pos h]

theorem renderISO_overflow {day : ℤ} (h : 100000000 < day.natAbs) :
    renderISO day = .error "Invalid time value" := by
  rw [renderISO, if_neg (by omega)]

/-- Normalization of an N-daysAgo token built from any nonempty string of
decimal digits: toISOString on the date N days before the reference,
which renders that date when it is representable and throws when it is
not. -/
theorem formatDate_daysAgo (ref : ℤ) (ds : List Char) (hne : ds ≠ [])
    (h : ∀ c ∈ ds, c.isDigit = true) :
    formatDate ref (String.mk (ds ++ "daysAgo".data)) = renderISO (ref - digitsVal ds) := by
  rw [formatDate]
  rw [if_neg (mk_append_ne_today ds), if_neg (mk_append_ne_yesterday ds h)]
  have hinc : jsIncludes (String.mk (ds ++ "daysAgo".data)) "daysAgo" = true := by
    show containsSub "daysAgo".data (ds ++ "daysAgo".data) = true
    exact containsSub_append_self _ _
  rw [hinc]
  simp [replaceFirstL_digits ds h, jsParseIntL_digits ds hne h]

theorem formatDate_30daysAgo (ref : ℤ) :
    formatDate ref "30daysAgo" = renderISO (ref - 30) := by
  rw [formatDate, if_neg (by decide : ¬("30daysAgo" = "today")),
    if_neg (by decide : ¬("30daysAgo" = "yesterday")),
    (by decide : jsIncludes "30daysAgo" "daysAgo" = true)]
  simp [(by decide : jsParseIntL (replaceFirstL "daysAgo".data "30daysAgo".data) = some 30)]

theorem formatDate_today (ref : ℤ) : formatDate ref "today" = renderISO ref := by
  rw [formatDate, if_pos rfl]

/-- For the clock-bounded reference of a route environment, the default
start token always renders. -/
theorem formatDate_30daysAgo_clock {ref : ℤ} (h : ref.natAbs ≤ 99999000) :
    formatDate ref "30daysAgo" = .ok (.rendered (ref - 30)) := by
  rw [formatDate_30daysAgo, renderISO_ok (by omega)]

/-- For the clock-bounded reference of a route environment, the default
end token always renders. -/
theorem formatDate_today_clock {ref : ℤ} (h : ref.natAbs ≤ 99999000) :
    formatDate ref "today" = .ok (.rendered ref) := by
  rw [formatDate_today, renderISO_ok (by omega)]

/-- Off the inherited property names, the routes' own-key-or-default
lookup coincides with the full property-access semantics. -/
theorem lookupJs_agrees {α : Type} (t : List (String × α)) (k : String)
    (hk : ¬(k ∈ objectProtoKeys)) :
    jsRecordGetOrDefault t k
      = (match lookupJs t k with
         | some v => JsProp.own v
         | none => JsProp.undefined) := by
  rw [jsRecordGetOrDefault, jsRecordGet, lookupJs]
  cases h1 : tableGet t k with
  | some v => rfl
  | none =>
    rw [if_neg hk]
    show jsRecordGet t "default" = _
    rw [jsRecordGet]
    cases h2 : tableGet t "default" with
    | some v => rfl
    | none => rw [if_neg (by decide : ¬("default" ∈ objectProtoKeys))]

end AppBase

deriving instance DecidableEq for Except

namespace AppBase

/-! ### Claim C1 -/

/-- Claim C1, counterexample.  The claim states that for a daysAgo token
whose numeric prefix is not a valid number the normalizer returns normally
with the literal token unmodified and never throws.  On the token
abcdaysAgo the source instead reaches the daysAgo branch, parseInt yields
NaN, setDate produces an invalid Date and toISOString throws, so the
normalizer (both the google-ads formatDate and the metricool
formatDateForMetricool, whose bodies are identical) throws rather than
returning the literal token. -/
theorem claim1_counterexample :
    formatDate 0 "abcdaysAgo" = .error "Invalid time value" ∧
    ¬(formatDate 0 "abcdaysAgo" = .ok (.literal "abcdaysAgo")) ∧
    formatDateForMetricool 0 "abcdaysAgo" = .error "Invalid time value" := by
  refine ⟨by decide, by decide, by decide⟩

/-- Claim C1, amended.  For every reference instant and every token that
contains daysAgo, is not today or yesterday, and whose prefix does not
parse as a number, the normalizer throws (the enclosing route's top-level
catch then turns this into a 500 error document); it does not return the
literal token. -/
theorem claim1_amended (ref : ℤ) (s : String)
    (hinc : jsIncludes s "daysAgo" = true)
    (ht : ¬(s = "today")) (hy : ¬(s = "yesterday"))
    (hnan : jsParseIntL (replaceFirstL "daysAgo".data s.data) = none) :
    formatDate ref s = .error "Invalid time value" ∧
    formatDateForMetricool ref s = .error "Invalid time value" := by
  have h : formatDate ref s = .error "Invalid time value" := by
    rw [formatDate, if_neg ht, if_neg hy, hinc]
    simp [hnan]
  exact ⟨h, h⟩

/-- Claim C1, witness for the amended theorem at the token abcdaysAgo and
reference day 0. -/
theorem claim1_witness :
    formatDate 0 "abcdaysAgo" = .error "Invalid time value" ∧
    formatDateForMetricool 0 "abcdaysAgo" = .error "Invalid time value" :=
  claim1_amended 0 "abcdaysAgo" (by decide) (by decide) (by decide) (by decide)

/-! ### Claim C2 -/

/-- Claim C2, counterexample.  The claim states that for every N at or
above 0 the token NdaysAgo normalizes to the date N days before the
reference.  At the token 200000000daysAgo against the (valid, year-2024)
reference day 19800, the source's setDate drives the Date 199,980,200
days before the epoch, outside the ±100,000,000-day representable range,
so the Date is invalid and toISOString throws instead of returning the
date N days back. -/
theorem claim2_counterexample :
    (19800 : ℤ).natAbs ≤ 100000000 ∧
    formatDate 19800 "200000000daysAgo" = .error "Invalid time value" ∧
    ¬(formatDate 19800 "200000000daysAgo" = .ok (.rendered (19800 - 200000000))) ∧
    formatDateForMetricool 19800 "200000000daysAgo" = .error "Invalid time value" := by
  refine ⟨by decide, by decide, by decide, by decide⟩

/-- Claim C2, amended.  Against a fixed reference instant: today
normalizes to the reference date (0 days back) and yesterday to 1 day
back whenever those days are representable; a token built from a
nonempty string of decimal digits followed by daysAgo normalizes to the
date N days back (N the number the digits denote) whenever that day is
within the ±100,000,000-day Date range, and throws (Invalid Date in
toISOString) when it is beyond the range; the metricool normalizer
agrees with the google-ads normalizer on every token, and both are pure
functions of the token and the reference, so repeated calls with the
same arguments return the same date. -/
theorem claim2_amended (ref : ℤ) (ds : List Char) (hne : ds ≠ [])
    (h : ∀ c ∈ ds, c.isDigit = true) :
    (ref.natAbs ≤ 100000000 → formatDate ref "today" = .ok (.rendered (ref - 0))) ∧
    ((ref - 1).natAbs ≤ 100000000 →
      formatDate ref "yesterday" = .ok (.rendered (ref - 1))) ∧
    ((ref - digitsVal ds).natAbs ≤ 100000000 →
      formatDate ref (String.mk (ds ++ "daysAgo".data))
        = .ok (.rendered (ref - digitsVal ds))) ∧
    (100000000 < (ref - digitsVal ds).natAbs →
      formatDate ref (String.mk (ds ++ "daysAgo".data)) = .error "Invalid time value") ∧
    (∀ s : String, formatDateForMetricool ref s = formatDate ref s) := by
  refine ⟨?_, ?_, ?_, ?_, fun s => rfl⟩
  · intro hr
    rw [formatDate_today, renderISO_ok hr]
    simp
  · intro hr
    rw [formatDate, if_neg (by decide : ¬("yesterday" = "today")), if_pos rfl,
      renderISO_ok hr]
  · intro hr
    rw [formatDate_daysAgo ref ds hne h, renderISO_ok hr]
  · intro hr
    rw [formatDate_daysAgo ref ds hne h, renderISO_overflow hr]

/-- Claim C2, witness: the amended theorem applied at reference day 100
with the token 7daysAgo (in range, renders 93) and at reference day
19800 with the token 200000000daysAgo (out of range, throws). -/
theorem claim2_witness :
    formatDate 100 "today" = .ok (.rendered 100) ∧
    formatDate 100 "yesterday" = .ok (.rendered 99) ∧
    formatDate 100 "7daysAgo" = .ok (.rendered 93) ∧
    formatDate 19800 "200000000daysAgo" = .error "Invalid time value" ∧
    (∀ s : String, formatDateForMetricool 100 s = formatDate 100 s) :=
  ⟨(claim2_amended 100 ['7'] (by decide) (by decide)).1 (by decide),
   (claim2_amended 100 ['7'] (by decide) (by decide)).2.1 (by decide),
   (claim2_amended 100 ['7'] (by decide) (by decide)).2.2.1 (by decide),
   (claim2_amended 19800 ['2', '0', '0', '0', '0', '0', '0', '0', '0']
     (by decide) (by decide)).2.2.2.1 (by decide),
   (claim2_amended 100 ['7'] (by decide) (by decide)).2.2.2.2⟩

/-! ### Claim C3 -/

/-- Claim C3: the claim states that a tenant whose advertising config has
hasGoogleAds = false gets a NotConfigured result and zero provider
queries.  The mapping table declares the flag and the dashboard component
renders a not-configured panel when a response carries hasGoogleAds =
false, but the route never reads the flag and never returns it: evaluated
at the Art Unlimited tenant (hasGoogleAds = false) with every external
call succeeding, the handler issues both provider queries and returns an
ordinary success body with no not-configured marker. -/
theorem claim3_flag_ignored :
    (lookupJs CUSTOMER_MAPPING "7d52dc8e-c603-4c7e-ad27-60c15a86c12f").map
        (fun c => c.hasGoogleAds) = some false ∧
    adsGET ⟨some "tok", none, none⟩
        ⟨⟨some "id", some "secret", some "devtok", some "refresh", some "key"⟩,
         .ok (some "7d52dc8e-c603-4c7e-ad27-60c15a86c12f"), .ok (), .ok (), 100, by decide,
         .ok [], .ok []⟩
      = (.ok ⟨"7d52dc8e-c603-4c7e-ad27-60c15a86c12f", "Art Unlimited", "1196391424",
              ⟨"30daysAgo", "today"⟩, none, []⟩,
         [.identityLookup, .adsQuery "campaign", .adsQuery "customer"]) := by
  refine ⟨by decide, by decide⟩

/-! ### Claim C4 -/

/-- Claim C4, counterexample.  The claim states that a failed top-pages
query with a successful primary totals query yields a success record with
topPages = [].  The GA4 route awaits each query with no per-query catch,
so at a concrete environment where the totals and time-series queries
succeed and the pages query rejects, the handler aborts into its
top-level catch and returns the 500 error document instead (the sources,
devices and countries queries are never issued). -/
theorem claim4_counterexample :
    ga4GET ⟨some "tok", none, none⟩
      ⟨.ok (some "default"),
       .ok ⟨some [⟨none, some [some "120", some "150", some "300", some "12.5",
                               some "0.4", some "80", some "0.6"]⟩]⟩,
       .ok ⟨some []⟩, .error "pages down", .ok ⟨some []⟩, .ok ⟨some []⟩, .ok ⟨some []⟩⟩
      = (.err 500 ⟨"Failed to fetch analytics data", some "pages down"⟩,
         [.identityLookup, .ga4Query "metrics", .ga4Query "timeSeries", .ga4Query "pages"]) := by
  decide

/-- Claim C4, amended.  When the primary totals query succeeds and the
top-pages query fails, the whole request fails with the 500 error
document; topPages = [] (present but empty) arises only when the pages
query itself succeeds with absent rows, in which case the main metrics are
still populated from the totals query. -/
theorem claim4_amended (req : Request) (env : Ga4Env) (tok : String) (sess : Option String)
    (m t s d c : Ga4Report) (e : String)
    (htok : req.token = some tok) (htne : ¬(tok = ""))
    (hs : env.session = .ok sess) (hm : env.metricsQ = .ok m)
    (ht2 : env.timeSeriesQ = .ok t) :
    (env.pagesQ = .error e →
      (ga4GET req env).1 = .err 500 ⟨"Failed to fetch analytics data", some e⟩) ∧
    (env.pagesQ = .ok ⟨none⟩ → env.sourcesQ = .ok s → env.devicesQ = .ok d →
      env.countriesQ = .ok c →
      (ga4GET req env).1.topPagesOf = some [] ∧
      (ga4GET req env).1.metricsOf = some ((mainRowOf m).map parseMainMetrics)) := by
  constructor
  · intro hp
    simp [ga4GET, jsTruthyStr, htok, htne, hs, hm, ht2, hp, ga4Err]
  · intro hp hsrc hd hc
    simp [ga4GET, jsTruthyStr, htok, htne, hs, hm, ht2, hp, hsrc, hd, hc,
      Ga4Resp.topPagesOf, Ga4Resp.metricsOf]

/-- Claim C4, witness: the amended theorem applied at two concrete
environments, one with a rejected pages query and one with a pages reply
that has no rows. -/
theorem claim4_witness :
    (ga4GET ⟨some "tok", none, none⟩
        ⟨.ok (some "default"), .ok ⟨none⟩, .ok ⟨none⟩, .error "pages down",
         .ok ⟨none⟩, .ok ⟨none⟩, .ok ⟨none⟩⟩).1
      = .err 500 ⟨"Failed to fetch analytics data", some "pages down"⟩ ∧
    ((ga4GET ⟨some "tok", none, none⟩
        ⟨.ok (some "default"), .ok ⟨none⟩, .ok ⟨none⟩, .ok ⟨none⟩,
         .ok ⟨none⟩, .ok ⟨none⟩, .ok ⟨none⟩⟩).1.topPagesOf = some [] ∧
     (ga4GET ⟨some "tok", none, none⟩
        ⟨.ok (some "default"), .ok ⟨none⟩, .ok ⟨none⟩, .ok ⟨none⟩,
         .ok ⟨none⟩, .ok ⟨none⟩, .ok ⟨none⟩⟩).1.metricsOf
       = some ((mainRowOf ⟨none⟩).map parseMainMetrics)) :=
  ⟨(claim4_amended ⟨some "tok", none, none⟩
      ⟨.ok (some "default"), .ok ⟨none⟩, .ok ⟨none⟩, .error "pages down",
       .ok ⟨none⟩, .ok ⟨none⟩, .ok ⟨none⟩⟩
      "tok" (some "default") ⟨none⟩ ⟨none⟩ ⟨none⟩ ⟨none⟩ ⟨none⟩ "pages down"
      rfl (by decide) rfl rfl rfl).1 rfl,
   (claim4_amended ⟨some "tok", none, none⟩
      ⟨.ok (some "default"), .ok ⟨none⟩, .ok ⟨none⟩, .ok ⟨none⟩,
       .ok ⟨none⟩, .ok ⟨none⟩, .ok ⟨none⟩⟩
      "tok" (some "default") ⟨none⟩ ⟨none⟩ ⟨none⟩ ⟨none⟩ ⟨none⟩ "unused"
      rfl (by decide) rfl rfl rfl).2 rfl rfl rfl rfl⟩

/-! ### Claim C5 -/

/-- Claim C5, counterexample.  The claim states that on every provider
endpoint a throwing identity lookup degrades to the default tenant and
the request proceeds normally.  On the GA4 route the getTokenPayload call
has no local try/catch, so at a concrete environment where it throws the
handler aborts into its top-level catch and returns the 500 error
document without issuing a single provider query. -/
theorem claim5_counterexample :
    ga4GET ⟨some "tok", none, none⟩
      ⟨.error "copilot down", .ok ⟨none⟩, .ok ⟨none⟩, .ok ⟨none⟩,
       .ok ⟨none⟩, .ok ⟨none⟩, .ok ⟨none⟩⟩
      = (.err 500 ⟨"Failed to fetch analytics data", some "copilot down"⟩,
         [.identityLookup]) := by
  decide

/-- Claim C5, amended.  When the identity lookup succeeds but yields no
company id, every endpoint behaves exactly as for the literal tenant
default; when the lookup throws, the advertising and social endpoints
(which catch it locally) likewise proceed as for the default tenant,
while the web-analytics endpoint propagates the failure (previous
counterexample). -/
theorem claim5_amended (req : Request) (genv : Ga4Env) (aenv : AdsEnv)
    (menv : MetricoolEnv) (e : String) :
    ga4GET req {genv with session := .ok none}
      = ga4GET req {genv with session := .ok (some "default")} ∧
    adsGET req {aenv with session := .error e}
      = adsGET req {aenv with session := .ok none} ∧
    adsGET req {aenv with session := .ok none}
      = adsGET req {aenv with session := .ok (some "default")} ∧
    metricoolGET req {menv with session := .error e}
      = metricoolGET req {menv with session := .ok none} ∧
    metricoolGET req {menv with session := .ok none}
      = metricoolGET req {menv with session := .ok (some "default")} :=
  ⟨rfl, rfl, rfl, rfl, rfl⟩

/-! ### Claim C6 -/

/-- Claim C6, counterexample.  The claim states that every
click-through-rate fraction is converted to the 2-decimal percentage
string of f times 100, so 0.0342 yields the string 3.42.  In the source
the ctr field is Number(raw or 0) * 100, a JSON number: at raw ctr
0.0342 the normalized ctr is the number 3.42, not the string, while the
cost conversion (1,500,000 micros to 1.5 currency units) does hold. -/
theorem claim6_counterexample :
    (normalizeAdsMetrics (some ⟨some 1000, some 50, some (342/10000), some 1500000,
        some 2, some 10, some 250000⟩)).ctr = JVal.num (342/100) ∧
    ¬((normalizeAdsMetrics (some ⟨some 1000, some 50, some (342/10000), some 1500000,
        some 2, some 10, some 250000⟩)).ctr = JVal.str "3.42") ∧
    (normalizeAdsMetrics (some ⟨some 1000, some 50, some (342/10000), some 1500000,
        some 2, some 10, some 250000⟩)).cost = 3/2 := by
  refine ⟨?_, ?_, ?_⟩
  · simp [normalizeAdsMetrics, numOr0]
    norm_num
  · simp [normalizeAdsMetrics, numOr0]
  · simp [normalizeAdsMetrics, numOr0]
    norm_num

/-- Claim C6, amended.  In the advertising route, both for the
account-level totals and for every campaign row, cost_micros is divided
by 1,000,000 and the click-through-rate fraction is multiplied by 100 but
emitted as a JSON number, not as a 2-decimal percentage string; the
success body applies these conversions to the first totals row and to
every campaign row. -/
theorem claim6_amended (req : Request) (env : AdsEnv) (tok : String)
    (row : AdsRawRow) (rest : List AdsRawRow) (camps : List AdsRawCampaignRow)
    (htok : req.token = some tok) (htne : ¬(tok = ""))
    (hsd : req.startDate = none) (hed : req.endDate = none)
    (hvars : adsMissingVars env.vars = [])
    (hci : env.clientInit = .ok ()) (hcu : env.customerInit = .ok ())
    (hcq : env.campaignQ = .ok camps) (hmq : env.metricsQ = .ok (row :: rest)) :
    (adsGET req env).1.metricsOf = some (some (normalizeAdsMetrics row.metrics)) ∧
    (adsGET req env).1.campaignsOf = some (camps.map normalizeCampaign) ∧
    (normalizeAdsMetrics row.metrics).cost
      = numOr0 (row.metrics.bind (fun x => x.cost_micros)) / 1000000 ∧
    (normalizeAdsMetrics row.metrics).ctr
      = JVal.num (numOr0 (row.metrics.bind (fun x => x.ctr)) * 100) ∧
    (∀ r ∈ camps,
      (normalizeCampaign r).cost = numOr0 (r.metrics.bind (fun x => x.cost_micros)) / 1000000 ∧
      (normalizeCampaign r).ctr = JVal.num (numOr0 (r.metrics.bind (fun x => x.ctr)) * 100)) := by
  have h30 : formatDate env.ref "30daysAgo" = .ok (.rendered (env.ref - 30)) :=
    formatDate_30daysAgo_clock env.refOk
  have htod : formatDate env.ref "today" = .ok (.rendered env.ref) :=
    formatDate_today_clock env.refOk
  refine ⟨?_, ?_, rfl, rfl, fun r hr => ⟨rfl, rfl⟩⟩
  · simp [adsGET, jsTruthyStr, jsOr, htok, htne, hsd, hed, hvars, hci, hcu, hcq, hmq,
      h30, htod, AdsResp.metricsOf]
  · simp [adsGET, jsTruthyStr, jsOr, htok, htne, hsd, hed, hvars, hci, hcu, hcq, hmq,
      h30, htod, AdsResp.campaignsOf]

/-- Claim C6, witness at a totals row with ctr 0.0342 and cost_micros
1,500,000 and one campaign row with the same metrics. -/
theorem claim6_witness :
    (adsGET ⟨some "tok", none, none⟩
        ⟨⟨some "id", some "secret", some "devtok", some "refresh", some "key"⟩,
         .ok none, .ok (), .ok (), 100, by decide,
         .ok [⟨some ⟨some 7, some "Camp", some "ENABLED"⟩,
               some ⟨some 1000, some 50, some (342/10000), some 1500000,
                     some 2, some 10, some 250000⟩⟩],
         .ok [⟨some ⟨some 1000, some 50, some (342/10000), some 1500000,
                     some 2, some 10, some 250000⟩⟩]⟩).1.metricsOf
      = some (some (normalizeAdsMetrics (some ⟨some 1000, some 50, some (342/10000),
          some 1500000, some 2, some 10, some 250000⟩))) ∧
    (adsGET ⟨some "tok", none, none⟩
        ⟨⟨some "id", some "secret", some "devtok", some "refresh", some "key"⟩,
         .ok none, .ok (), .ok (), 100, by decide,
         .ok [⟨some ⟨some 7, some "Camp", some "ENABLED"⟩,
               some ⟨some 1000, some 50, some (342/10000), some 1500000,
                     some 2, some 10, some 250000⟩⟩],
         .ok [⟨some ⟨some 1000, some 50, some (342/10000), some 1500000,
                     some 2, some 10, some 250000⟩⟩]⟩).1.campaignsOf
      = some ([⟨some ⟨some 7, some "Camp", some "ENABLED"⟩,
               some ⟨some 1000, some 50, some (342/10000), some 1500000,
                     some 2, some 10, some 250000⟩⟩].map normalizeCampaign) ∧
    (normalizeAdsMetrics (some ⟨some 1000, some 50, some (342/10000), some 1500000,
        some 2, some 10, some 250000⟩)).cost
      = numOr0 (some (1500000 : ℚ)) / 1000000 ∧
    (normalizeAdsMetrics (some ⟨some 1000, some 50, some (342/10000), some 1500000,
        some 2, some 10, some 250000⟩)).ctr
      = JVal.num (numOr0 (some ((342 : ℚ)/10000)) * 100) ∧
    (∀ r ∈ [(⟨some ⟨some 7, some "Camp", some "ENABLED"⟩,
             some ⟨some 1000, some 50, some (342/10000), some 1500000,
                   some 2, some 10, some 250000⟩⟩ : AdsRawCampaignRow)],
      (normalizeCampaign r).cost = numOr0 (r.metrics.bind (fun x => x.cost_micros)) / 1000000 ∧
      (normalizeCampaign r).ctr = JVal.num (numOr0 (r.metrics.bind (fun x => x.ctr)) * 100)) :=
  claim6_amended ⟨some "tok", none, none⟩
    ⟨⟨some "id", some "secret", some "devtok", some "refresh", some "key"⟩,
     .ok none, .ok (), .ok (), 100, by decide,
     .ok [⟨some ⟨some 7, some "Camp", some "ENABLED"⟩,
           some ⟨some 1000, some 50, some (342/10000), some 1500000,
                 some 2, some 10, some 250000⟩⟩],
     .ok [⟨some ⟨some 1000, some 50, some (342/10000), some 1500000,
                 some 2, some 10, some 250000⟩⟩]⟩
    "tok"
    ⟨some ⟨some 1000, some 50, some (342/10000), some 1500000, some 2, some 10, some 250000⟩⟩
    []
    [⟨some ⟨some 7, some "Camp", some "ENABLED"⟩,
      some ⟨some 1000, some 50, some (342/10000), some 1500000,
            some 2, some 10, some 250000⟩⟩]
    rfl (by decide) rfl rfl (by decide) rfl rfl rfl rfl

/-! ### Claim C7 -/

/-- Claim C7, counterexample.  The claim states that every tenant id not
present as a key returns exactly the config stored under default.  The
mapping tables are object literals, so a bracket access at a property
name inherited from Object.prototype yields the inherited member — a
truthy function — and the or-default fallback never triggers: at the
absent id toString each of the three tables returns the inherited
toString member instead of its default config. -/
theorem claim7_counterexample :
    tableGet PROPERTY_MAPPING "toString" = none ∧
    tableGet CUSTOMER_MAPPING "toString" = none ∧
    tableGet BLOG_MAPPING "toString" = none ∧
    jsRecordGetOrDefault PROPERTY_MAPPING "toString" = .inherited "toString" ∧
    jsRecordGetOrDefault CUSTOMER_MAPPING "toString" = .inherited "toString" ∧
    jsRecordGetOrDefault BLOG_MAPPING "toString" = .inherited "toString" ∧
    ¬(jsRecordGetOrDefault PROPERTY_MAPPING "toString"
        = .own ⟨"270323387", "Art Unlimited", "1196391424"⟩) := by
  refine ⟨by decide, by decide, by decide, by decide, by decide, by decide, by decide⟩

/-- Claim C7, amended.  For every tenant id that is not a property name
inherited from Object.prototype: per table, if the id is absent from
that table the access-or-default lookup returns exactly that table's
default entry, and the lookup never yields undefined; ids that are
inherited property names instead surface the inherited member
(previous counterexample). -/
theorem claim7_amended (id : String) (hp : ¬(id ∈ objectProtoKeys)) :
    (tableGet PROPERTY_MAPPING id = none →
      jsRecordGetOrDefault PROPERTY_MAPPING id
        = .own ⟨"270323387", "Art Unlimited", "1196391424"⟩) ∧
    (tableGet CUSTOMER_MAPPING id = none →
      jsRecordGetOrDefault CUSTOMER_MAPPING id
        = .own ⟨"7116961973", "Art Unlimited", false⟩) ∧
    (tableGet BLOG_MAPPING id = none →
      jsRecordGetOrDefault BLOG_MAPPING id
        = .own ⟨"1920806", "Straightline Roofing"⟩) ∧
    ¬(jsRecordGetOrDefault PROPERTY_MAPPING id = .undefined) ∧
    ¬(jsRecordGetOrDefault CUSTOMER_MAPPING id = .undefined) ∧
    ¬(jsRecordGetOrDefault BLOG_MAPPING id = .undefined) := by
  refine ⟨?_, ?_, ?_, ?_, ?_, ?_⟩
  · intro h
    rw [jsRecordGetOrDefault, jsRecordGet, h, if_neg hp]
    decide
  · intro h
    rw [jsRecordGetOrDefault, jsRecordGet, h, if_neg hp]
    decide
  · intro h
    rw [jsRecordGetOrDefault, jsRecordGet, h, if_neg hp]
    decide
  · rw [jsRecordGetOrDefault, jsRecordGet]
    cases h : tableGet PROPERTY_MAPPING id with
    | some v => simp
    | none =>
      rw [if_neg hp]
      decide
  · rw [jsRecordGetOrDefault, jsRecordGet]
    cases h : tableGet CUSTOMER_MAPPING id with
    | some v => simp
    | none =>
      rw [if_neg hp]
      decide
  · rw [jsRecordGetOrDefault, jsRecordGet]
    cases h : tableGet BLOG_MAPPING id with
    | some v => simp
    | none =>
      rw [if_neg hp]
      decide

/-- Claim C7, witness at a tenant id that is absent from each table and
is not an inherited property name: each table's lookup yields its own
default entry. -/
theorem claim7_witness :
    jsRecordGetOrDefault PROPERTY_MAPPING "no-such-tenant"
      = .own ⟨"270323387", "Art Unlimited", "1196391424"⟩ ∧
    jsRecordGetOrDefault CUSTOMER_MAPPING "no-such-tenant"
      = .own ⟨"7116961973", "Art Unlimited", false⟩ ∧
    jsRecordGetOrDefault BLOG_MAPPING "no-such-tenant"
      = .own ⟨"1920806", "Straightline Roofing"⟩ ∧
    ¬(jsRecordGetOrDefault PROPERTY_MAPPING "no-such-tenant" = .undefined) :=
  ⟨(claim7_amended "no-such-tenant" (by decide)).1 (by decide),
   (claim7_amended "no-such-tenant" (by decide)).2.1 (by decide),
   (claim7_amended "no-such-tenant" (by decide)).2.2.1 (by decide),
   (claim7_amended "no-such-tenant" (by decide)).2.2.2.1⟩

/-! ### Claim C8 -/

/-- Claim C8: on each of the three provider endpoints, a request without
the token query parameter yields the 401 error document and an empty
effect trace: no identity lookup and no provider call is attempted. -/
theorem claim8_missing_token (req : Request) (genv : Ga4Env) (aenv : AdsEnv)
    (menv : MetricoolEnv) (h : req.token = none) :
    ga4GET req genv = (.err 401 ⟨"No token provided", none⟩, []) ∧
    adsGET req aenv = (.errAuth, []) ∧
    metricoolGET req menv = (.errAuth, []) ∧
    AdsResp.errAuth.status = 401 ∧
    MetricoolResp.errAuth.status = 401 := by
  refine ⟨?_, ?_, ?_, rfl, rfl⟩
  · simp [ga4GET, jsTruthyStr, h]
  · simp [adsGET, jsTruthyStr, h]
  · simp [metricoolGET, jsTruthyStr, h]

/-- Claim C8, witness at a concrete tokenless request on all three
endpoints. -/
theorem claim8_witness :
    ga4GET ⟨none, none, none⟩
        ⟨.ok none, .ok ⟨none⟩, .ok ⟨none⟩, .ok ⟨none⟩, .ok ⟨none⟩, .ok ⟨none⟩, .ok ⟨none⟩⟩
      = (.err 401 ⟨"No token provided", none⟩, []) ∧
    adsGET ⟨none, none, none⟩
        ⟨⟨some "id", some "secret", some "devtok", some "refresh", some "key"⟩,
         .ok none, .ok (), .ok (), 0, by decide, .ok [], .ok []⟩
      = (.errAuth, []) ∧
    metricoolGET ⟨none, none, none⟩
        ⟨⟨some "a", some "b", some "c"⟩, .ok none, 0, by decide, .ok .jnull, .ok .jnull, .ok .jnull⟩
      = (.errAuth, []) ∧
    AdsResp.errAuth.status = 401 ∧
    MetricoolResp.errAuth.status = 401 :=
  claim8_missing_token ⟨none, none, none⟩
    ⟨.ok none, .ok ⟨none⟩, .ok ⟨none⟩, .ok ⟨none⟩, .ok ⟨none⟩, .ok ⟨none⟩, .ok ⟨none⟩⟩
    ⟨⟨some "id", some "secret", some "devtok", some "refresh", some "key"⟩,
     .ok none, .ok (), .ok (), 0, by decide, .ok [], .ok []⟩
    ⟨⟨some "a", some "b", some "c"⟩, .ok none, 0, by decide, .ok .jnull, .ok .jnull, .ok .jnull⟩
    rfl

/-! ### Claim C9 -/

/-- Claim C9: on the metricool route, whenever the request carries a
token, the configuration variables are present and the date tokens
format successfully, the response is a 200 success whose profile, stats
and posts sections are each exactly the outcome of their own provider
call (null when that call failed, the payload when it succeeded) —
so a failed posts call yields posts = null with profile and stats still
populated, and no single call's failure affects another section. -/
theorem claim9_sections_independent (req : Request) (env : MetricoolEnv) (tok : String)
    (d1 d2 : DateStr)
    (htok : req.token = some tok) (htne : ¬(tok = ""))
    (hvars : metricoolMissingVars env.vars = [])
    (hd1 : formatDateForMetricool env.ref (jsOr req.startDate "30daysAgo") = .ok d1)
    (hd2 : formatDateForMetricool env.ref (jsOr req.endDate "today") = .ok d2) :
    (metricoolGET req env).1.profileOf = some env.profileQ.toOption ∧
    (metricoolGET req env).1.statsOf = some env.statsQ.toOption ∧
    (metricoolGET req env).1.postsOf = some env.postsQ.toOption ∧
    (metricoolGET req env).1.status = 200 := by
  cases hs : env.session with
  | ok sess =>
    refine ⟨?_, ?_, ?_, ?_⟩ <;>
      simp [metricoolGET, jsTruthyStr, htok, htne, hvars, hs, hd1, hd2,
        MetricoolResp.profileOf, MetricoolResp.statsOf, MetricoolResp.postsOf,
        MetricoolResp.status]
  | error e =>
    refine ⟨?_, ?_, ?_, ?_⟩ <;>
      simp [metricoolGET, jsTruthyStr, htok, htne, hvars, hs, hd1, hd2,
        MetricoolResp.profileOf, MetricoolResp.statsOf, MetricoolResp.postsOf,
        MetricoolResp.status]

/-- Claim C9, witness at an environment where the posts call fails while
the profile and stats calls succeed: posts is null, the other two
sections carry their payloads. -/
theorem claim9_witness :
    (metricoolGET ⟨some "tok", none, none⟩
        ⟨⟨some "a", some "b", some "c"⟩, .ok (some "7d52dc8e-c603-4c7e-ad27-60c15a86c12f"),
         100, by decide, .ok (.str "profiledata"), .ok (.str "statsdata"), .error "posts down"⟩).1.profileOf
      = some (some (.str "profiledata")) ∧
    (metricoolGET ⟨some "tok", none, none⟩
        ⟨⟨some "a", some "b", some "c"⟩, .ok (some "7d52dc8e-c603-4c7e-ad27-60c15a86c12f"),
         100, by decide, .ok (.str "profiledata"), .ok (.str "statsdata"), .error "posts down"⟩).1.statsOf
      = some (some (.str "statsdata")) ∧
    (metricoolGET ⟨some "tok", none, none⟩
        ⟨⟨some "a", some "b", some "c"⟩, .ok (some "7d52dc8e-c603-4c7e-ad27-60c15a86c12f"),
         100, by decide, .ok (.str "profiledata"), .ok (.str "statsdata"), .error "posts down"⟩).1.postsOf
      = some none ∧
    (metricoolGET ⟨some "tok", none, none⟩
        ⟨⟨some "a", some "b", some "c"⟩, .ok (some "7d52dc8e-c603-4c7e-ad27-60c15a86c12f"),
         100, by decide, .ok (.str "profiledata"), .ok (.str "statsdata"), .error "posts down"⟩).1.status
      = 200 :=
  claim9_sections_independent ⟨some "tok", none, none⟩
    ⟨⟨some "a", some "b", some "c"⟩, .ok (some "7d52dc8e-c603-4c7e-ad27-60c15a86c12f"),
     100, by decide, .ok (.str "profiledata"), .ok (.str "statsdata"), .error "posts down"⟩
    "tok" (.rendered 70) (.rendered 100)
    rfl (by decide) (by decide) (by decide) (by decide)

/-! ### Claim C10 -/

/-- Claim C10: on each of the three provider endpoints, an omitted
startDate parameter defaults to 30daysAgo and an omitted endDate
parameter defaults to today, independently of each other, and the
success response echoes exactly the resulting pair (defaulted token for
each omitted bound, the supplied value for a present bound) in its
dateRange — so the claim holds for requests omitting startDate, endDate
or both. -/
theorem claim10_date_defaults (req : Request) (genv : Ga4Env) (aenv : AdsEnv)
    (menv : MetricoolEnv) (tok : String) (sess : Option String)
    (m t p s d c : Ga4Report) (camps : List AdsRawCampaignRow) (overall : List AdsRawRow)
    (fa1 fa2 fm1 fm2 : DateStr)
    (htok : req.token = some tok) (htne : ¬(tok = ""))
    (hgs : genv.session = .ok sess) (hgm : genv.metricsQ = .ok m)
    (hgt : genv.timeSeriesQ = .ok t) (hgp : genv.pagesQ = .ok p)
    (hgsr : genv.sourcesQ = .ok s) (hgd : genv.devicesQ = .ok d) (hgc : genv.countriesQ = .ok c)
    (havars : adsMissingVars aenv.vars = [])
    (haci : aenv.clientInit = .ok ()) (hacu : aenv.customerInit = .ok ())
    (hacq : aenv.campaignQ = .ok camps) (hamq : aenv.metricsQ = .ok overall)
    (hfa1 : formatDate aenv.ref (jsOr req.startDate "30daysAgo") = .ok fa1)
    (hfa2 : formatDate aenv.ref (jsOr req.endDate "today") = .ok fa2)
    (hmvars : metricoolMissingVars menv.vars = [])
    (hfm1 : formatDateForMetricool menv.ref (jsOr req.startDate "30daysAgo") = .ok fm1)
    (hfm2 : formatDateForMetricool menv.ref (jsOr req.endDate "today") = .ok fm2) :
    (req.startDate = none → jsOr req.startDate "30daysAgo" = "30daysAgo") ∧
    (req.endDate = none → jsOr req.endDate "today" = "today") ∧
    (ga4GET req genv).1.dateRangeOf
      = some ⟨jsOr req.startDate "30daysAgo", jsOr req.endDate "today"⟩ ∧
    (adsGET req aenv).1.dateRangeOf
      = some ⟨jsOr req.startDate "30daysAgo", jsOr req.endDate "today"⟩ ∧
    (metricoolGET req menv).1.dateRangeOf
      = some ⟨jsOr req.startDate "30daysAgo", jsOr req.endDate "today"⟩ := by
  refine ⟨fun h => by rw [h]; rfl, fun h => by rw [h]; rfl, ?_, ?_, ?_⟩
  · simp [ga4GET, jsTruthyStr, htok, htne, hgs, hgm, hgt, hgp,
      hgsr, hgd, hgc, Ga4Resp.dateRangeOf]
  · simp [adsGET, jsTruthyStr, htok, htne, havars, haci, hacu,
      hacq, hamq, hfa1, hfa2, AdsResp.dateRangeOf]
  · cases hs2 : menv.session with
    | ok sess2 =>
      simp [metricoolGET, jsTruthyStr, htok, htne, hmvars, hs2, hfm1, hfm2,
        MetricoolResp.dateRangeOf]
    | error e =>
      simp [metricoolGET, jsTruthyStr, htok, htne, hmvars, hs2, hfm1, hfm2,
        MetricoolResp.dateRangeOf]

/-- Claim C10, witness: the theorem applied at a request omitting only
startDate (endDate supplied as a literal date) and at a request omitting
only endDate (startDate supplied as a relative token), on all three
endpoints. -/
theorem claim10_witness :
    (ga4GET ⟨some "tok", none, some "2024-12-31"⟩
        ⟨.ok none, .ok ⟨none⟩, .ok ⟨none⟩, .ok ⟨none⟩, .ok ⟨none⟩, .ok ⟨none⟩,
         .ok ⟨none⟩⟩).1.dateRangeOf = some ⟨"30daysAgo", "2024-12-31"⟩ ∧
    (adsGET ⟨some "tok", none, some "2024-12-31"⟩
        ⟨⟨some "id", some "secret", some "devtok", some "refresh", some "key"⟩,
         .ok none, .ok (), .ok (), 100, by decide, .ok [], .ok []⟩).1.dateRangeOf
      = some ⟨"30daysAgo", "2024-12-31"⟩ ∧
    (metricoolGET ⟨some "tok", none, some "2024-12-31"⟩
        ⟨⟨some "a", some "b", some "c"⟩, .ok none, 100, by decide, .ok .jnull, .ok .jnull,
         .ok .jnull⟩).1.dateRangeOf = some ⟨"30daysAgo", "2024-12-31"⟩ ∧
    (ga4GET ⟨some "tok", some "7daysAgo", none⟩
        ⟨.ok none, .ok ⟨none⟩, .ok ⟨none⟩, .ok ⟨none⟩, .ok ⟨none⟩, .ok ⟨none⟩,
         .ok ⟨none⟩⟩).1.dateRangeOf = some ⟨"7daysAgo", "today"⟩ ∧
    (adsGET ⟨some "tok", some "7daysAgo", none⟩
        ⟨⟨some "id", some "secret", some "devtok", some "refresh", some "key"⟩,
         .ok none, .ok (), .ok (), 100, by decide, .ok [], .ok []⟩).1.dateRangeOf
      = some ⟨"7daysAgo", "today"⟩ ∧
    (metricoolGET ⟨some "tok", some "7daysAgo", none⟩
        ⟨⟨some "a", some "b", some "c"⟩, .ok none, 100, by decide, .ok .jnull, .ok .jnull,
         .ok .jnull⟩).1.dateRangeOf = some ⟨"7daysAgo", "today"⟩ :=
  ⟨((claim10_date_defaults ⟨some "tok", none, some "2024-12-31"⟩
      ⟨.ok none, .ok ⟨none⟩, .ok ⟨none⟩, .ok ⟨none⟩, .ok ⟨none⟩, .ok ⟨none⟩, .ok ⟨none⟩⟩
      ⟨⟨some "id", some "secret", some "devtok", some "refresh", some "key"⟩,
       .ok none, .ok (), .ok (), 100, by decide, .ok [], .ok []⟩
      ⟨⟨some "a", some "b", some "c"⟩, .ok none, 100, by decide, .ok .jnull, .ok .jnull, .ok .jnull⟩
      "tok" none ⟨none⟩ ⟨none⟩ ⟨none⟩ ⟨none⟩ ⟨none⟩ ⟨none⟩ [] []
      (.rendered 70) (.literal "2024-12-31") (.rendered 70) (.literal "2024-12-31")
      rfl (by decide) rfl rfl rfl rfl rfl rfl rfl rfl rfl rfl rfl rfl
      (by decide) (by decide) (by decide) (by decide) (by decide)).2.2.1),
   ((claim10_date_defaults ⟨some "tok", none, some "2024-12-31"⟩
      ⟨.ok none, .ok ⟨none⟩, .ok ⟨none⟩, .ok ⟨none⟩, .ok ⟨none⟩, .ok ⟨none⟩, .ok ⟨none⟩⟩
      ⟨⟨some "id", some "secret", some "devtok", some "refresh", some "key"⟩,
       .ok none, .ok (), .ok (), 100, by decide, .ok [], .ok []⟩
      ⟨⟨some "a", some "b", some "c"⟩, .ok none, 100, by decide, .ok .jnull, .ok .jnull, .ok .jnull⟩
      "tok" none ⟨none⟩ ⟨none⟩ ⟨none⟩ ⟨none⟩ ⟨none⟩ ⟨none⟩ [] []
      (.rendered 70) (.literal "2024-12-31") (.rendered 70) (.literal "2024-12-31")
      rfl (by decide) rfl rfl rfl rfl rfl rfl rfl rfl rfl rfl rfl rfl
      (by decide) (by decide) (by decide) (by decide) (by decide)).2.2.2.1),
   ((claim10_date_defaults ⟨some "tok", none, some "2024-12-31"⟩
      ⟨.ok none, .ok ⟨none⟩, .ok ⟨none⟩, .ok ⟨none⟩, .ok ⟨none⟩, .ok ⟨none⟩, .ok ⟨none⟩⟩
      ⟨⟨some "id", some "secret", some "devtok", some "refresh", some "key"⟩,
       .ok none, .ok (), .ok (), 100, by decide, .ok [], .ok []⟩
      ⟨⟨some "a", some "b", some "c"⟩, .ok none, 100, by decide, .ok .jnull, .ok .jnull, .ok .jnull⟩
      "tok" none ⟨none⟩ ⟨none⟩ ⟨none⟩ ⟨none⟩ ⟨none⟩ ⟨none⟩ [] []
      (.rendered 70) (.literal "2024-12-31") (.rendered 70) (.literal "2024-12-31")
      rfl (by decide) rfl rfl rfl rfl rfl rfl rfl rfl rfl rfl rfl rfl
      (by decide) (by decide) (by decide) (by decide) (by decide)).2.2.2.2),
   ((claim10_date_defaults ⟨some "tok", some "7daysAgo", none⟩
      ⟨.ok none, .ok ⟨none⟩, .ok ⟨none⟩, .ok ⟨none⟩, .ok ⟨none⟩, .ok ⟨none⟩, .ok ⟨none⟩⟩
      ⟨⟨some "id", some "secret", some "devtok", some "refresh", some "key"⟩,
       .ok none, .ok (), .ok (), 100, by decide, .ok [], .ok []⟩
      ⟨⟨some "a", some "b", some "c"⟩, .ok none, 100, by decide, .ok .jnull, .ok .jnull, .ok .jnull⟩
      "tok" none ⟨none⟩ ⟨none⟩ ⟨none⟩ ⟨none⟩ ⟨none⟩ ⟨none⟩ [] []
      (.rendered 93) (.rendered 100) (.rendered 93) (.rendered 100)
      rfl (by decide) rfl rfl rfl rfl rfl rfl rfl rfl rfl rfl rfl rfl
      (by decide) (by decide) (by decide) (by decide) (by decide)).2.2.1),
   ((claim10_date_defaults ⟨some "tok", some "7daysAgo", none⟩
      ⟨.ok none, .ok ⟨none⟩, .ok ⟨none⟩, .ok ⟨none⟩, .ok ⟨none⟩, .ok ⟨none⟩, .ok ⟨none⟩⟩
      ⟨⟨some "id", some "secret", some "devtok", some "refresh", some "key"⟩,
       .ok none, .ok (), .ok (), 100, by decide, .ok [], .ok []⟩
      ⟨⟨some "a", some "b", some "c"⟩, .ok none, 100, by decide, .ok .jnull, .ok .jnull, .ok .jnull⟩
      "tok" none ⟨none⟩ ⟨none⟩ ⟨none⟩ ⟨none⟩ ⟨none⟩ ⟨none⟩ [] []
      (.rendered 93) (.rendered 100) (.rendered 93) (.rendered 100)
      rfl (by decide) rfl rfl rfl rfl rfl rfl rfl rfl rfl rfl rfl rfl
      (by decide) (by decide) (by decide) (by decide) (by decide)).2.2.2.1),
   ((claim10_date_defaults ⟨some "tok", some "7daysAgo", none⟩
      ⟨.ok none, .ok ⟨none⟩, .ok ⟨none⟩, .ok ⟨none⟩, .ok ⟨none⟩, .ok ⟨none⟩, .ok ⟨none⟩⟩
      ⟨⟨some "id", some "secret", some "devtok", some "refresh", some "key"⟩,
       .ok none, .ok (), .ok (), 100, by decide, .ok [], .ok []⟩
      ⟨⟨some "a", some "b", some "c"⟩, .ok none, 100, by decide, .ok .jnull, .ok .jnull, .ok .jnull⟩
      "tok" none ⟨none⟩ ⟨none⟩ ⟨none⟩ ⟨none⟩ ⟨none⟩ ⟨none⟩ [] []
      (.rendered 93) (.rendered 100) (.rendered 93) (.rendered 100)
      rfl (by decide) rfl rfl rfl rfl rfl rfl rfl rfl rfl rfl rfl rfl
      (by decide) (by decide) (by decide) (by decide) (by decide)).2.2.2.2)⟩

end AppBase
